import Mathlib

/-!
# Master unit of the nRF24L01+ ack-payload link

A shallow embedding of `master_one_slave_nRF24L01_ackpayload_comms.cpp`:
the file-scope variables become the fields of `State`, the responses of the
RF24 driver and the readings of `millis()` are explicit inputs, and every call
on the driver or on `Serial` is recorded, in program order, in a list of
`Event`s.  `int` values are modelled by `Int` (the only arithmetic on them,
`masterSendCount++`, is guarded by `masterSendCount < 500`), `unsigned long`
values by `Nat` with the subtraction reduced modulo `2 ^ 32`.

The wait of `loop` has an empty body and a condition over two non-volatile
variables.  When the condition holds at entry the source fixes no single
outcome: executed as written the wait never ends, and C++11 lets a build
assume that it ends and drop it.  `WaitBuild` names the two, and `busyWait`
and `loop` take the build as an argument.
-/

namespace MasterNode

/-! ## Constants and data -/

/-- Transmission cycle send rate in milliseconds: `#define SEND_RATE 1000`. -/
def SEND_RATE : Nat := 1000

/-- Number of values of an `unsigned long` (32 bits on the Arduino targets). -/
def ULONG_MOD : Nat := 2 ^ 32

/-- Least value of `INT_MAX` on any conforming target (16-bit `int`, as on AVR). -/
def INT_MAX : Int := 32767

/-- Calls made by the program on the `Serial` object and on the `radio` object. -/
inductive Event where
  | serialPrint (text : String)
  | serialPrintInt (value : Int)
  | serialPrintln (text : String)
  | serialPrintlnInt (value : Int)
  | radioWrite (value : Int) (len : Nat)
  | radioIsAckPayloadAvailable
  | radioRead (len : Nat)
  deriving DecidableEq, Repr

/-- File-scope variables of the program. -/
structure State where
  masterSendCount : Int
  remoteNodeData : Int × Int
  currentTime : Nat
  lastSentTime : Nat
  deriving DecidableEq, Repr

/-- State at program start: `masterSendCount = 0`, `remoteNodeData = {1, 1}`, and the
two timing variables, which have no initialiser, zero-initialised. -/
def initialState : State :=
  { masterSendCount := 0, remoteNodeData := (1, 1), currentTime := 0, lastSentTime := 0 }

/-- Answers of the RF24 driver during one call of `receiveNodeData`: the result of
`radio.write`, the result of `radio.isAckPayloadAvailable`, and the two `int`s that
`radio.read` copies into `remoteNodeData`. -/
structure RadioResponse where
  writeOk : Bool
  ackAvailable : Bool
  ackPayload : Int × Int
  deriving DecidableEq, Repr

/-! ## The program -/

/-- Value of `currentTime - lastSentTime` in `unsigned long` arithmetic. -/
def usub (a b : Nat) : Nat :=
  (a % ULONG_MOD + (ULONG_MOD - b % ULONG_MOD)) % ULONG_MOD

/-- Lines printed at the start of every `receiveNodeData`, followed by the `radio.write`
call; `intSize` is `sizeof(int)` on the target. -/
def cycleHeader (intSize : Nat) (s : State) : List Event :=
  [ Event.serialPrint "[*] Master unit has successfully sent and received data ",
    Event.serialPrintInt s.masterSendCount,
    Event.serialPrintln " times.",
    Event.serialPrintln "[*] Attempting to transmit data to remote node.",
    Event.serialPrint "[*] The master unit count being sent is: ",
    Event.serialPrintlnInt s.masterSendCount,
    Event.radioWrite s.masterSendCount intSize ]

/-- Separator line printed at the end of every `receiveNodeData`. -/
def cycleSeparator : Event :=
  Event.serialPrintln "--------------------------------------------------------"

/-- Function `receiveNodeData` of the source: one radio call to the node. Returns the
new file-scope variables and the calls made, in order. -/
def receiveNodeData (intSize : Nat) (radio : RadioResponse) (s : State) :
    State × List Event :=
  let tx_sent := radio.writeOk
  if tx_sent then
    if radio.ackAvailable then
      let s1 : State := { s with remoteNodeData := radio.ackPayload }
      let s2 : State :=
        if s1.masterSendCount < 500 then
          { s1 with masterSendCount := s1.masterSendCount + 1 }
        else
          { s1 with masterSendCount := 1 }
      (s2, cycleHeader intSize s ++
        [ Event.radioIsAckPayloadAvailable,
          Event.radioRead (2 * intSize),
          Event.serialPrint "[+] Successfully received data from  remote node.",
          Event.serialPrint "  ---- The received count was: ",
          Event.serialPrintlnInt s1.remoteNodeData.2,
          cycleSeparator ])
    else
      (s, cycleHeader intSize s ++ [Event.radioIsAckPayloadAvailable, cycleSeparator])
  else
    (s, cycleHeader intSize s ++
      [ Event.serialPrint "[-] The transmission to the selected node failed.",
        cycleSeparator ])

/-- Treatment of `while (currentTime - lastSentTime <= SEND_RATE) {}` by the build. The
body is empty and the condition reads only the non-volatile `currentTime` and
`lastSentTime`, so the wait has no effect and, once entered with its condition true, no
end. `spins` executes it as written; `assumedToEnd` is the build that uses the leave of
C++11 to assume that such a loop ends, and so goes on to the next statement. -/
inductive WaitBuild where
  | spins
  | assumedToEnd
  deriving DecidableEq, Repr

/-- Busy-wait of `loop`: `while (currentTime - lastSentTime <= SEND_RATE) {}`. The body
is empty, so the wait changes no variable. Executed as written, `fuel` bounds the number
of iterations and `none` means the bound was reached with the condition still true;
assumed to end, the wait is left at once whatever the condition. -/
def busyWait : WaitBuild → Nat → State → Option State
  | WaitBuild.assumedToEnd, _, s => some s
  | WaitBuild.spins, 0, s =>
    if usub s.currentTime s.lastSentTime ≤ SEND_RATE then none else some s
  | WaitBuild.spins, fuel + 1, s =>
    if usub s.currentTime s.lastSentTime ≤ SEND_RATE then busyWait WaitBuild.spins fuel s
    else some s

/-- Function `loop` of the source. `tEntry` is the value returned by the first call of
`millis()`, `tExit` the value returned by the second one. -/
def loop (build : WaitBuild) (fuel intSize tEntry tExit : Nat) (radio : RadioResponse)
    (s : State) : Option (State × List Event) :=
  let s1 : State := { s with currentTime := tEntry }
  match busyWait build fuel s1 with
  | none => none
  | some s2 =>
    let out := receiveNodeData intSize radio s2
    some ({ out.1 with lastSentTime := tExit }, out.2)

/-- Result of consecutive calls of `receiveNodeData`, one for each driver response. -/
def runCycles (intSize : Nat) : List RadioResponse → State → State × List Event
  | [], s => (s, [])
  | r :: rs, s =>
    let out := receiveNodeData intSize r s
    let rest := runCycles intSize rs out.1
    (rest.1, out.2 ++ rest.2)

/-- A cycle is fully successful when the write succeeded and an ack payload was there. -/
def isSuccess (r : RadioResponse) : Bool := r.writeOk && r.ackAvailable

/-- Number of fully successful cycles among the driver responses. -/
def successes (rs : List RadioResponse) : Nat := rs.countP isSuccess

/-- Calls on the radio driver among the events. -/
def driverCalls (log : List Event) : List Event :=
  log.filter fun e =>
    match e with
    | Event.radioWrite _ _ => true
    | Event.radioIsAckPayloadAvailable => true
    | Event.radioRead _ => true
    | _ => false

/-- Calls on `Serial` among the events. -/
def serialOutput (log : List Event) : List Event :=
  log.filter fun e =>
    match e with
    | Event.serialPrint _ => true
    | Event.serialPrintInt _ => true
    | Event.serialPrintln _ => true
    | Event.serialPrintlnInt _ => true
    | _ => false

/-- Values handed to `radio.write`, in order. -/
def sentValues (log : List Event) : List Int :=
  log.filterMap fun e =>
    match e with
    | Event.radioWrite v _ => some v
    | _ => none

/-! ## One cycle -/

/-- Effect of the success branch on the counter: `masterSendCount++` below 500, else 1. -/
theorem success_branch_count (intSize : Nat) (radio : RadioResponse) (s : State)
    (hw : radio.writeOk = true) (ha : radio.ackAvailable = true) :
    (receiveNodeData intSize radio s).1.masterSendCount =
      (if s.masterSendCount < 500 then s.masterSendCount + 1 else 1) := by
  simp only [receiveNodeData, hw, ha, if_true]
  split <;> rfl

/-- A cycle that is not fully successful returns the variables it was given. -/
theorem receiveNodeData_not_success (intSize : Nat) (radio : RadioResponse) (s : State)
    (h : isSuccess radio = false) : (receiveNodeData intSize radio s).1 = s := by
  unfold isSuccess at h
  unfold receiveNodeData
  cases hw : radio.writeOk <;> cases ha : radio.ackAvailable <;> simp_all

/-- C1: a cycle whose write succeeds and whose ack payload is available stores the
payload `[id, cnt]` in `remoteNodeData` and, for a counter `c` with `0 ≤ c ≤ 500`,
leaves `masterSendCount = c + 1` when `c < 500` and `1` when `c = 500`, never 501. -/
theorem receiveNodeData_success (intSize : Nat) (radio : RadioResponse) (s : State)
    (hw : radio.writeOk = true) (ha : radio.ackAvailable = true)
    (h0 : 0 ≤ s.masterSendCount) (h500 : s.masterSendCount ≤ 500) :
    (receiveNodeData intSize radio s).1.remoteNodeData = radio.ackPayload ∧
    (s.masterSendCount < 500 →
      (receiveNodeData intSize radio s).1.masterSendCount = s.masterSendCount + 1) ∧
    (s.masterSendCount = 500 →
      (receiveNodeData intSize radio s).1.masterSendCount = 1) ∧
    (receiveNodeData intSize radio s).1.masterSendCount ≠ 501 := by
  have hc := success_branch_count intSize radio s hw ha
  refine ⟨?_, ?_, ?_, ?_⟩
  · simp only [receiveNodeData, hw, ha, if_true]
    split <;> rfl
  · intro hlt
    rw [hc, if_pos hlt]
  · intro heq
    rw [hc, if_neg (by omega)]
  · rw [hc]
    split <;> omega

/-- C1 at the inputs of the specification: counter 1 with payload `[1, 7]` gives the
report `[1, 7]` and counter 2, and counter 500 gives counter 1. -/
theorem receiveNodeData_success_witness :
    ((receiveNodeData 2 ⟨true, true, (1, 7)⟩ ⟨1, (1, 1), 0, 0⟩).1.remoteNodeData = (1, 7) ∧
      (receiveNodeData 2 ⟨true, true, (1, 7)⟩ ⟨1, (1, 1), 0, 0⟩).1.masterSendCount = 2) ∧
    (receiveNodeData 2 ⟨true, true, (1, 8)⟩ ⟨500, (1, 7), 0, 0⟩).1.masterSendCount = 1 :=
  ⟨⟨(receiveNodeData_success 2 ⟨true, true, (1, 7)⟩ ⟨1, (1, 1), 0, 0⟩ rfl rfl
        (by decide) (by decide)).1,
      (receiveNodeData_success 2 ⟨true, true, (1, 7)⟩ ⟨1, (1, 1), 0, 0⟩ rfl rfl
        (by decide) (by decide)).2.1 (by decide)⟩,
    (receiveNodeData_success 2 ⟨true, true, (1, 8)⟩ ⟨500, (1, 7), 0, 0⟩ rfl rfl
      (by decide) (by decide)).2.2.1 rfl⟩

/-- C2: when `radio.write` fails, or succeeds with no ack payload available, the cycle
leaves `remoteNodeData` and `masterSendCount` equal to their values before it. -/
theorem receiveNodeData_stale (intSize : Nat) (radio : RadioResponse) (s : State)
    (h : radio.writeOk = false ∨ (radio.writeOk = true ∧ radio.ackAvailable = false)) :
    (receiveNodeData intSize radio s).1.remoteNodeData = s.remoteNodeData ∧
    (receiveNodeData intSize radio s).1.masterSendCount = s.masterSendCount := by
  have hs : (receiveNodeData intSize radio s).1 = s := by
    apply receiveNodeData_not_success
    unfold isSuccess
    rcases h with h | ⟨_, h⟩ <;> simp [h]
  rw [hs]
  exact ⟨rfl, rfl⟩

/-- C2 at the inputs of the specification: counter 42 stays 42, and the report stays,
after a failed write and after a write without ack payload. -/
theorem receiveNodeData_stale_witness :
    ((receiveNodeData 2 ⟨false, true, (9, 9)⟩ ⟨42, (1, 7), 0, 0⟩).1.remoteNodeData = (1, 7) ∧
      (receiveNodeData 2 ⟨false, true, (9, 9)⟩ ⟨42, (1, 7), 0, 0⟩).1.masterSendCount = 42) ∧
    ((receiveNodeData 2 ⟨true, false, (9, 9)⟩ ⟨42, (1, 7), 0, 0⟩).1.remoteNodeData = (1, 7) ∧
      (receiveNodeData 2 ⟨true, false, (9, 9)⟩ ⟨42, (1, 7), 0, 0⟩).1.masterSendCount = 42) :=
  ⟨receiveNodeData_stale 2 ⟨false, true, (9, 9)⟩ ⟨42, (1, 7), 0, 0⟩ (Or.inl rfl),
    receiveNodeData_stale 2 ⟨true, false, (9, 9)⟩ ⟨42, (1, 7), 0, 0⟩ (Or.inr ⟨rfl, rfl⟩)⟩

/-! ## Sequences of cycles -/

/-- Unfolding of `runCycles` on a non-empty list of responses. -/
theorem runCycles_cons (intSize : Nat) (r : RadioResponse) (rs : List RadioResponse)
    (s : State) :
    runCycles intSize (r :: rs) s =
      ((runCycles intSize rs (receiveNodeData intSize r s).1).1,
        (receiveNodeData intSize r s).2 ++
          (runCycles intSize rs (receiveNodeData intSize r s).1).2) := rfl

/-- Counting successes: a successful head adds one, another head adds nothing. -/
theorem successes_cons (r : RadioResponse) (rs : List RadioResponse) :
    successes (r :: rs) = successes rs + (if isSuccess r = true then 1 else 0) := by
  unfold successes
  rw [List.countP_cons]

/-- From a counter `(m mod 500) + 1`, the counter after the cycles is
`((m + k) mod 500) + 1`, with `k` the number of fully successful cycles. -/
theorem runCycles_count_pos (intSize : Nat) (rs : List RadioResponse) (s : State) (m : Nat)
    (hm : s.masterSendCount = ((m % 500 : Nat) : Int) + 1) :
    (runCycles intSize rs s).1.masterSendCount =
      (((m + successes rs) % 500 : Nat) : Int) + 1 := by
  induction rs generalizing s m with
  | nil => simpa [runCycles, successes] using hm
  | cons r rs ih =>
    rw [runCycles_cons, successes_cons]
    cases hr : isSuccess r with
    | false =>
      rw [receiveNodeData_not_success intSize r s hr]
      simpa using ih s m hm
    | true =>
      have hw : r.writeOk = true := by
        unfold isSuccess at hr; simp at hr; exact hr.1
      have ha : r.ackAvailable = true := by
        unfold isSuccess at hr; simp at hr; exact hr.2
      have hc := success_branch_count intSize r s hw ha
      have hstep : (receiveNodeData intSize r s).1.masterSendCount =
          (((m + 1) % 500 : Nat) : Int) + 1 := by
        rw [hc, hm]
        split <;> omega
      have := ih (receiveNodeData intSize r s).1 (m + 1) hstep
      simp only [if_true]
      rw [this]
      congr 2
      omega

/-- From counter 0, the counter after the cycles is 0 when none was fully successful and
`((k - 1) mod 500) + 1` after `k ≥ 1` fully successful ones. -/
theorem runCycles_count_zero (intSize : Nat) (rs : List RadioResponse) (s : State)
    (h0 : s.masterSendCount = 0) :
    (runCycles intSize rs s).1.masterSendCount =
      (if successes rs = 0 then 0 else (((successes rs - 1) % 500 : Nat) : Int) + 1) := by
  induction rs generalizing s with
  | nil => simpa [runCycles, successes] using h0
  | cons r rs ih =>
    rw [runCycles_cons, successes_cons]
    cases hr : isSuccess r with
    | false =>
      rw [receiveNodeData_not_success intSize r s hr]
      simpa using ih s h0
    | true =>
      have hw : r.writeOk = true := by
        unfold isSuccess at hr; simp at hr; exact hr.1
      have ha : r.ackAvailable = true := by
        unfold isSuccess at hr; simp at hr; exact hr.2
      have hc := success_branch_count intSize r s hw ha
      have hstep : (receiveNodeData intSize r s).1.masterSendCount =
          (((0 : Nat) % 500 : Nat) : Int) + 1 := by
        rw [hc, h0]
        simp
      have := runCycles_count_pos intSize rs (receiveNodeData intSize r s).1 0 hstep
      simp only [if_true]
      rw [this, if_neg (by omega)]
      congr 2
      omega

/-- Every cycle hands exactly one value to `radio.write`: the counter before the cycle. -/
theorem sentValues_receiveNodeData (intSize : Nat) (r : RadioResponse) (s : State) :
    sentValues (receiveNodeData intSize r s).2 = [s.masterSendCount] := by
  unfold receiveNodeData
  cases r.writeOk <;> cases r.ackAvailable <;>
    simp [sentValues, cycleHeader, cycleSeparator]

/-- The value handed to `radio.write` in cycle `i` (from 0) is the counter left by the
`i` cycles before it. -/
theorem sentValues_runCycles (intSize : Nat) (rs : List RadioResponse) (s : State) (i : Nat)
    (hi : i < rs.length) :
    (sentValues (runCycles intSize rs s).2)[i]? =
      some (runCycles intSize (rs.take i) s).1.masterSendCount := by
  induction rs generalizing s i with
  | nil => simp at hi
  | cons r rs ih =>
    rw [runCycles_cons]
    have happ : sentValues ((receiveNodeData intSize r s).2 ++
          (runCycles intSize rs (receiveNodeData intSize r s).1).2) =
        s.masterSendCount :: sentValues (runCycles intSize rs (receiveNodeData intSize r s).1).2 := by
      unfold sentValues
      rw [List.filterMap_append]
      have := sentValues_receiveNodeData intSize r s
      unfold sentValues at this
      rw [this]
      rfl
    rw [happ]
    cases i with
    | zero => simp [runCycles]
    | succ j =>
      have hj : j < rs.length := by simpa using hi
      simpa [runCycles_cons] using ih (receiveNodeData intSize r s).1 j hj

/-- Counter bounds after any cycles from counter 0. -/
theorem runCycles_count_bounds (intSize : Nat) (rs : List RadioResponse) (s : State)
    (h0 : s.masterSendCount = 0) :
    0 ≤ (runCycles intSize rs s).1.masterSendCount ∧
    (runCycles intSize rs s).1.masterSendCount ≤ 500 ∧
    ((runCycles intSize rs s).1.masterSendCount = 0 ↔ successes rs = 0) := by
  rw [runCycles_count_zero intSize rs s h0]
  split <;> rename_i h
  · simp [h]
  · refine ⟨by omega, by omega, ?_⟩
    constructor
    · intro h1; omega
    · intro h1; exact absurd h1 h

/-- Responses that are all fully successful are all counted. -/
theorem successes_of_all (rs : List RadioResponse) (h : ∀ r ∈ rs, isSuccess r = true) :
    successes rs = rs.length := by
  unfold successes
  exact List.countP_eq_length.mpr h

/-- C3: from the initial state and for `1 ≤ n ≤ 500`, after `n` consecutive fully
successful cycles `masterSendCount = ((n - 1) mod 500) + 1`, and the same holds after any
cycles of which `n` are fully successful, whatever failed or ack-absent cycles lie
between them. -/
theorem runCycles_count_after_successes (intSize n : Nat) (h1 : 1 ≤ n) (h500 : n ≤ 500) :
    (∀ rs : List RadioResponse, rs.length = n → (∀ r ∈ rs, isSuccess r = true) →
      (runCycles intSize rs initialState).1.masterSendCount = (((n - 1) % 500 + 1 : Nat) : Int)) ∧
    (∀ rs : List RadioResponse, successes rs = n →
      (runCycles intSize rs initialState).1.masterSendCount = (((n - 1) % 500 + 1 : Nat) : Int) ∧
      (runCycles intSize rs initialState).1.masterSendCount = (n : Int)) := by
  have key : ∀ rs : List RadioResponse, successes rs = n →
      (runCycles intSize rs initialState).1.masterSendCount =
        (((n - 1) % 500 + 1 : Nat) : Int) := by
    intro rs hrs
    rw [runCycles_count_zero intSize rs initialState rfl, hrs, if_neg (by omega)]
    push_cast
    rfl
  refine ⟨fun rs hlen hall => key rs ?_, fun rs hrs => ⟨key rs hrs, ?_⟩⟩
  · rw [successes_of_all rs hall, hlen]
  · rw [key rs hrs]
    have : (n - 1) % 500 + 1 = n := by omega
    rw [this]

/-- C3 at `n = 3`: three fully successful cycles in a row leave counter 3, and so do
three fully successful cycles with a failed and an ack-absent cycle between them. -/
theorem runCycles_count_after_successes_witness :
    (runCycles 2 [⟨true, true, (1, 1)⟩, ⟨true, true, (1, 2)⟩, ⟨true, true, (1, 3)⟩]
      initialState).1.masterSendCount = 3 ∧
    (runCycles 2 [⟨true, true, (1, 1)⟩, ⟨false, false, (0, 0)⟩, ⟨true, true, (1, 2)⟩,
      ⟨true, false, (0, 0)⟩, ⟨true, true, (1, 3)⟩] initialState).1.masterSendCount = 3 :=
  ⟨(runCycles_count_after_successes 2 3 (by decide) (by decide)).1 _ rfl (by decide),
    ((runCycles_count_after_successes 2 3 (by decide) (by decide)).2 _ (by decide)).2⟩

/-- C4 as stated fails: in the initial state, and still after a failed cycle, the counter
is 0, outside `[1, 500]`. -/
theorem initial_counter_outside_one_to_500 :
    initialState.masterSendCount = 0 ∧
    ¬ (1 ≤ (runCycles 2 [] initialState).1.masterSendCount ∧
        (runCycles 2 [] initialState).1.masterSendCount ≤ 500) ∧
    ¬ (1 ≤ (runCycles 2 [⟨false, false, (0, 0)⟩] initialState).1.masterSendCount ∧
        (runCycles 2 [⟨false, false, (0, 0)⟩] initialState).1.masterSendCount ≤ 500) := by
  decide

/-- C4, amended: in the initial state and after any finite sequence of cycles with
arbitrary driver outcomes `masterSendCount` lies in `[0, 500]`, and it lies in `[1, 500]`
as soon as one of the cycles was fully successful. -/
theorem counter_range (intSize : Nat) (rs : List RadioResponse) :
    (0 ≤ (runCycles intSize rs initialState).1.masterSendCount ∧
      (runCycles intSize rs initialState).1.masterSendCount ≤ 500) ∧
    (1 ≤ successes rs →
      1 ≤ (runCycles intSize rs initialState).1.masterSendCount ∧
      (runCycles intSize rs initialState).1.masterSendCount ≤ 500) := by
  obtain ⟨hlo, hhi, hz⟩ := runCycles_count_bounds intSize rs initialState rfl
  refine ⟨⟨hlo, hhi⟩, fun hs => ⟨?_, hhi⟩⟩
  have hne : (runCycles intSize rs initialState).1.masterSendCount ≠ 0 := by
    intro h
    have := hz.mp h
    omega
  omega

/-- C4, amended, at a run with two fully successful cycles: the counter is in `[1, 500]`. -/
theorem counter_range_witness :
    1 ≤ (runCycles 2 [⟨false, true, (0, 0)⟩, ⟨true, true, (1, 1)⟩, ⟨true, true, (1, 2)⟩]
      initialState).1.masterSendCount ∧
    (runCycles 2 [⟨false, true, (0, 0)⟩, ⟨true, true, (1, 1)⟩, ⟨true, true, (1, 2)⟩]
      initialState).1.masterSendCount ≤ 500 :=
  (counter_range 2 [⟨false, true, (0, 0)⟩, ⟨true, true, (1, 1)⟩, ⟨true, true, (1, 2)⟩]).2
    (by decide)

/-- C10: in every state reached from the initial state by any sequence of cycles,
`0 ≤ masterSendCount ≤ 500`, so that `masterSendCount + 1` stays below `INT_MAX`; the
counter is 0 exactly when no cycle so far was fully successful; once it is at least 1 it
stays in `[1, 500]` whatever cycles follow; and the value handed to `radio.write` in a
cycle is 0 exactly when no earlier cycle was fully successful, that is in every cycle up
to and including the first fully successful one. -/
theorem counter_zero_until_first_success (intSize : Nat) (rs : List RadioResponse) :
    (0 ≤ (runCycles intSize rs initialState).1.masterSendCount ∧
      (runCycles intSize rs initialState).1.masterSendCount ≤ 500) ∧
    (runCycles intSize rs initialState).1.masterSendCount + 1 ≤ INT_MAX ∧
    ((runCycles intSize rs initialState).1.masterSendCount = 0 ↔ successes rs = 0) ∧
    (∀ more : List RadioResponse,
      1 ≤ (runCycles intSize rs initialState).1.masterSendCount →
      1 ≤ (runCycles intSize (rs ++ more) initialState).1.masterSendCount ∧
      (runCycles intSize (rs ++ more) initialState).1.masterSendCount ≤ 500) ∧
    (∀ i : Nat, i < rs.length →
      ((sentValues (runCycles intSize rs initialState).2)[i]? = some 0 ↔
        successes (rs.take i) = 0)) := by
  obtain ⟨hlo, hhi, hz⟩ := runCycles_count_bounds intSize rs initialState rfl
  refine ⟨⟨hlo, hhi⟩, ?_, hz, ?_, ?_⟩
  · unfold INT_MAX
    omega
  · intro more hpos
    obtain ⟨hlo2, hhi2, hz2⟩ := runCycles_count_bounds intSize (rs ++ more) initialState rfl
    refine ⟨?_, hhi2⟩
    have hs : successes rs ≠ 0 := by
      intro h
      have := hz.mpr h
      omega
    have hs2 : successes (rs ++ more) ≠ 0 := by
      unfold successes at hs ⊢
      rw [List.countP_append]
      omega
    have hne : (runCycles intSize (rs ++ more) initialState).1.masterSendCount ≠ 0 :=
      fun h => hs2 (hz2.mp h)
    omega
  · intro i hi
    rw [sentValues_runCycles intSize rs initialState i hi]
    have hzi := (runCycles_count_bounds intSize (rs.take i) initialState rfl).2.2
    constructor
    · intro h
      exact hzi.mp (Option.some.inj h)
    · intro h
      rw [hzi.mpr h]

/-- C10 on a run of a failed, an ack-absent, a successful, a failed and a successful
cycle: the counter ends at 2 and stays in `[1, 500]` after one more successful cycle, and
0 is sent in the third cycle, the first successful one, but not in the fourth. -/
theorem counter_zero_until_first_success_witness :
    (1 ≤ (runCycles 2 ([⟨false, false, (0, 0)⟩, ⟨true, false, (0, 0)⟩, ⟨true, true, (1, 1)⟩,
        ⟨false, false, (0, 0)⟩, ⟨true, true, (1, 2)⟩] ++ [⟨true, true, (1, 3)⟩])
        initialState).1.masterSendCount ∧
      (runCycles 2 ([⟨false, false, (0, 0)⟩, ⟨true, false, (0, 0)⟩, ⟨true, true, (1, 1)⟩,
        ⟨false, false, (0, 0)⟩, ⟨true, true, (1, 2)⟩] ++ [⟨true, true, (1, 3)⟩])
        initialState).1.masterSendCount ≤ 500) ∧
    (sentValues (runCycles 2 [⟨false, false, (0, 0)⟩, ⟨true, false, (0, 0)⟩,
      ⟨true, true, (1, 1)⟩, ⟨false, false, (0, 0)⟩, ⟨true, true, (1, 2)⟩]
      initialState).2)[2]? = some 0 ∧
    ¬ (sentValues (runCycles 2 [⟨false, false, (0, 0)⟩, ⟨true, false, (0, 0)⟩,
      ⟨true, true, (1, 1)⟩, ⟨false, false, (0, 0)⟩, ⟨true, true, (1, 2)⟩]
      initialState).2)[3]? = some 0 :=
  ⟨(counter_zero_until_first_success 2 [⟨false, false, (0, 0)⟩, ⟨true, false, (0, 0)⟩,
      ⟨true, true, (1, 1)⟩, ⟨false, false, (0, 0)⟩, ⟨true, true, (1, 2)⟩]).2.2.2.1
      [⟨true, true, (1, 3)⟩] (by decide),
    ((counter_zero_until_first_success 2 [⟨false, false, (0, 0)⟩, ⟨true, false, (0, 0)⟩,
      ⟨true, true, (1, 1)⟩, ⟨false, false, (0, 0)⟩, ⟨true, true, (1, 2)⟩]).2.2.2.2
      2 (by decide)).mpr (by decide),
    fun h => absurd (((counter_zero_until_first_success 2 [⟨false, false, (0, 0)⟩,
      ⟨true, false, (0, 0)⟩, ⟨true, true, (1, 1)⟩, ⟨false, false, (0, 0)⟩,
      ⟨true, true, (1, 2)⟩]).2.2.2.2 3 (by decide)).mp h) (by decide)⟩

/-! ## Driver calls and serial output of one cycle -/

/-- C6: one `receiveNodeData` makes exactly one `radio.write`, of the counter before the
cycle with length `sizeof(masterSendCount)`; it asks `radio.isAckPayloadAvailable` only
after a successful write and calls `radio.read` once, only after a positive answer. The
driver calls are `[write]` on failure, `[write, isAckPayloadAvailable]` when no ack
payload is there and `[write, isAckPayloadAvailable, read]` on success. -/
theorem receiveNodeData_driverCalls (intSize : Nat) (radio : RadioResponse) (s : State) :
    driverCalls (receiveNodeData intSize radio s).2 =
      (if radio.writeOk = true then
        (if radio.ackAvailable = true then
          [Event.radioWrite s.masterSendCount intSize, Event.radioIsAckPayloadAvailable,
            Event.radioRead (2 * intSize)]
        else
          [Event.radioWrite s.masterSendCount intSize, Event.radioIsAckPayloadAvailable])
      else
        [Event.radioWrite s.masterSendCount intSize]) := by
  unfold receiveNodeData
  cases radio.writeOk <;> cases radio.ackAvailable <;>
    simp [driverCalls, cycleHeader, cycleSeparator]

/-- C9, the code at a successful write with no ack payload available: the serial output
is the header lines followed at once by the separator line, with no message about the
outcome between them. -/
theorem receiveNodeData_ackAbsent_serialOutput (intSize : Nat) (payload : Int × Int)
    (s : State) :
    serialOutput (receiveNodeData intSize ⟨true, false, payload⟩ s).2 =
      [ Event.serialPrint "[*] Master unit has successfully sent and received data ",
        Event.serialPrintInt s.masterSendCount,
        Event.serialPrintln " times.",
        Event.serialPrintln "[*] Attempting to transmit data to remote node.",
        Event.serialPrint "[*] The master unit count being sent is: ",
        Event.serialPrintlnInt s.masterSendCount,
        Event.serialPrintln "--------------------------------------------------------" ] := by
  simp [receiveNodeData, serialOutput, cycleHeader, cycleSeparator]

/-- Serial output of a cycle whose write fails: between the header lines and the
separator line stands the message that the transmission failed. -/
theorem receiveNodeData_failed_serialOutput (intSize : Nat) (avail : Bool)
    (payload : Int × Int) (s : State) :
    serialOutput (receiveNodeData intSize ⟨false, avail, payload⟩ s).2 =
      serialOutput (cycleHeader intSize s) ++
        [ Event.serialPrint "[-] The transmission to the selected node failed.",
          cycleSeparator ] := by
  simp [receiveNodeData, serialOutput, cycleHeader, cycleSeparator]

/-- Serial output of a fully successful cycle: between the header lines and the separator
line stand the message that data was received and the received count. -/
theorem receiveNodeData_received_serialOutput (intSize : Nat) (payload : Int × Int)
    (s : State) :
    serialOutput (receiveNodeData intSize ⟨true, true, payload⟩ s).2 =
      serialOutput (cycleHeader intSize s) ++
        [ Event.serialPrint "[+] Successfully received data from  remote node.",
          Event.serialPrint "  ---- The received count was: ",
          Event.serialPrintlnInt payload.2,
          cycleSeparator ] := by
  simp [receiveNodeData, serialOutput, cycleHeader, cycleSeparator]

/-! ## The scheduling loop -/

/-- Executed as written, the busy-wait entered with its condition true has no end: no
bound on the number of iterations lets it return. -/
theorem busyWait_spins (fuel : Nat) (s : State)
    (h : usub s.currentTime s.lastSentTime ≤ SEND_RATE) :
    busyWait WaitBuild.spins fuel s = none := by
  induction fuel with
  | zero => simp [busyWait, h]
  | succ n ih => simp [busyWait, h, ih]

/-- When the condition of the busy-wait is false the wait ends at once, in either build. -/
theorem busyWait_passes (build : WaitBuild) (fuel : Nat) (s : State)
    (h : SEND_RATE < usub s.currentTime s.lastSentTime) : busyWait build fuel s = some s := by
  have h2 : ¬ usub s.currentTime s.lastSentTime ≤ SEND_RATE := by omega
  cases build <;> cases fuel <;> simp [busyWait, h2]

/-- A busy-wait that ends leaves the variables as they were. -/
theorem busyWait_eq_some (build : WaitBuild) (fuel : Nat) (s s2 : State)
    (h : busyWait build fuel s = some s2) : s2 = s := by
  by_cases hc : usub s.currentTime s.lastSentTime ≤ SEND_RATE
  · cases build with
    | spins =>
      rw [busyWait_spins fuel s hc] at h
      exact absurd h (by simp)
    | assumedToEnd =>
      simp only [busyWait] at h
      exact (Option.some.inj h).symm
  · rw [busyWait_passes build fuel s (by omega)] at h
    exact (Option.some.inj h).symm

/-- Executed as written, `loop` entered before the interval has elapsed never gets past
its wait. -/
theorem loop_spins (fuel intSize tEntry tExit : Nat) (radio : RadioResponse) (s : State)
    (h : usub tEntry s.lastSentTime ≤ SEND_RATE) :
    loop WaitBuild.spins fuel intSize tEntry tExit radio s = none := by
  have hb := busyWait_spins fuel { s with currentTime := tEntry } h
  simp only [loop, hb]

/-- When more than the interval has elapsed at entry, `loop` runs one cycle and stores
the second reading of `millis()`, in either build. -/
theorem loop_runs (build : WaitBuild) (fuel intSize tEntry tExit : Nat)
    (radio : RadioResponse) (s : State) (h : SEND_RATE < usub tEntry s.lastSentTime) :
    loop build fuel intSize tEntry tExit radio s =
      some ({ (receiveNodeData intSize radio { s with currentTime := tEntry }).1 with
                lastSentTime := tExit },
            (receiveNodeData intSize radio { s with currentTime := tEntry }).2) := by
  have hb := busyWait_passes build fuel { s with currentTime := tEntry } h
  simp only [loop, hb]

/-- Once the wait ends, `loop` runs one cycle and stores the second reading. -/
theorem loop_of_busyWait (build : WaitBuild) (fuel intSize tEntry tExit : Nat)
    (radio : RadioResponse) (s : State)
    (hb : busyWait build fuel { s with currentTime := tEntry } =
      some { s with currentTime := tEntry }) :
    loop build fuel intSize tEntry tExit radio s =
      some ({ (receiveNodeData intSize radio { s with currentTime := tEntry }).1 with
                lastSentTime := tExit },
            (receiveNodeData intSize radio { s with currentTime := tEntry }).2) := by
  simp only [loop, hb]

/-- With the wait assumed to end, `loop` runs one cycle whatever the readings. -/
theorem loop_assumedToEnd (fuel intSize tEntry tExit : Nat) (radio : RadioResponse)
    (s : State) :
    loop WaitBuild.assumedToEnd fuel intSize tEntry tExit radio s =
      some ({ (receiveNodeData intSize radio { s with currentTime := tEntry }).1 with
                lastSentTime := tExit },
            (receiveNodeData intSize radio { s with currentTime := tEntry }).2) := by
  simp only [loop, busyWait]

/-- The timing variables are not touched by `receiveNodeData`. -/
theorem receiveNodeData_times (intSize : Nat) (radio : RadioResponse) (s : State) :
    (receiveNodeData intSize radio s).1.lastSentTime = s.lastSentTime ∧
    (receiveNodeData intSize radio s).1.currentTime = s.currentTime := by
  unfold receiveNodeData
  cases radio.writeOk <;> cases radio.ackAvailable <;> simp
  split <;> simp

/-- Subtraction of `unsigned long` values without wrap-around. -/
theorem usub_eq_sub (a b : Nat) (hba : b ≤ a) (ha : a < ULONG_MOD) : usub a b = a - b := by
  unfold usub
  have hb : b < ULONG_MOD := by omega
  rw [Nat.mod_eq_of_lt ha, Nat.mod_eq_of_lt hb]
  have : a + (ULONG_MOD - b) = (a - b) + ULONG_MOD := by omega
  rw [this, Nat.add_mod_right, Nat.mod_eq_of_lt (by omega)]

/-- A call of `loop` that returns got past its wait with the variables unchanged, ran
`receiveNodeData` on them with `currentTime` set, and stored the second reading. -/
theorem loop_eq_some (build : WaitBuild) (fuel intSize tEntry tExit : Nat)
    (radio : RadioResponse) (s : State) (out : State × List Event)
    (h : loop build fuel intSize tEntry tExit radio s = some out) :
    busyWait build fuel { s with currentTime := tEntry } = some { s with currentTime := tEntry } ∧
    out = ({ (receiveNodeData intSize radio { s with currentTime := tEntry }).1 with
              lastSentTime := tExit },
          (receiveNodeData intSize radio { s with currentTime := tEntry }).2) := by
  cases hb : busyWait build fuel { s with currentTime := tEntry } with
  | none =>
    simp only [loop, hb] at h
    exact absurd h (by simp)
  | some s2 =>
    have hs2 := busyWait_eq_some build fuel _ s2 hb
    subst hs2
    simp only [loop, hb] at h
    exact ⟨rfl, (Option.some.inj h).symm⟩

/-- Executed as written, a call of `loop` that returns found more than `SEND_RATE`
elapsed at entry; under a clock that neither decreases nor wraps, the entry readings of
two consecutive such calls are then more than `SEND_RATE` apart. These hold of the build
that spins only. -/
theorem loop_spins_eq_some (fuel1 fuel2 intSize tEntry1 tExit1 tEntry2 tExit2 : Nat)
    (radio1 radio2 : RadioResponse) (s : State) (out1 out2 : State × List Event)
    (h1 : loop WaitBuild.spins fuel1 intSize tEntry1 tExit1 radio1 s = some out1)
    (h2 : loop WaitBuild.spins fuel2 intSize tEntry2 tExit2 radio2 out1.1 = some out2)
    (h12 : tEntry1 ≤ tExit1) (hmono : tExit1 ≤ tEntry2) (hwrap : tEntry2 < ULONG_MOD) :
    SEND_RATE < usub tEntry1 s.lastSentTime ∧ tEntry1 + SEND_RATE < tEntry2 := by
  have hlt1 : SEND_RATE < usub tEntry1 s.lastSentTime := by
    by_cases hc : usub tEntry1 s.lastSentTime ≤ SEND_RATE
    · rw [loop_spins fuel1 intSize tEntry1 tExit1 radio1 s hc] at h1
      exact absurd h1 (by simp)
    · omega
  have hlt2 : SEND_RATE < usub tEntry2 out1.1.lastSentTime := by
    by_cases hc : usub tEntry2 out1.1.lastSentTime ≤ SEND_RATE
    · rw [loop_spins fuel2 intSize tEntry2 tExit2 radio2 out1.1 hc] at h2
      exact absurd h2 (by simp)
    · omega
  obtain ⟨_, hout1⟩ := loop_eq_some WaitBuild.spins fuel1 intSize tEntry1 tExit1 radio1 s out1 h1
  have hlast : out1.1.lastSentTime = tExit1 := by rw [hout1]
  rw [hlast, usub_eq_sub tEntry2 tExit1 hmono hwrap] at hlt2
  exact ⟨hlt1, by omega⟩

/-- C5, the code with the wait assumed to end: from the initial state, a first call of
`loop` with `millis()` reading 1200 at entry and 1300 after the cycle, then a second call
with readings 1500 and 1600. Both calls run `receiveNodeData`; at the entry of the second
`currentTime - lastSentTime` is 200, below `SEND_RATE`, and all four readings lie within
`SEND_RATE` of one another, so the two cycles start less than `SEND_RATE` apart. Executed
as written, the second call never returns. -/
theorem loop_runs_cycle_before_interval (fuel1 fuel2 intSize : Nat)
    (radio1 radio2 : RadioResponse) :
    ∃ out1 out2 : State × List Event,
      loop WaitBuild.assumedToEnd fuel1 intSize 1200 1300 radio1 initialState = some out1 ∧
      loop WaitBuild.assumedToEnd fuel2 intSize 1500 1600 radio2 out1.1 = some out2 ∧
      out2.2 = (receiveNodeData intSize radio2 { out1.1 with currentTime := 1500 }).2 ∧
      usub 1500 out1.1.lastSentTime = 200 ∧
      usub 1500 out1.1.lastSentTime < SEND_RATE ∧
      ¬ (1200 + SEND_RATE ≤ 1600) ∧
      loop WaitBuild.spins fuel2 intSize 1500 1600 radio2 out1.1 = none := by
  have h1 := loop_assumedToEnd fuel1 intSize 1200 1300 radio1 initialState
  refine ⟨_, _, h1, loop_assumedToEnd fuel2 intSize 1500 1600 radio2 _, rfl, ?_, ?_, ?_, ?_⟩
  · show usub 1500 1300 = 200
    decide
  · show usub 1500 1300 < SEND_RATE
    decide
  · decide
  · exact loop_spins fuel2 intSize 1500 1600 radio2 _ (show usub 1500 1300 ≤ SEND_RATE by decide)

/-- C7, the code entered before the interval has elapsed: from the initial state
(`lastSentTime = 0`) with `millis()` reading 500 at entry, `loop` executed as written
does not get past its wait within any number of iterations, whatever `millis()` would
read later: the wait compares the reading taken at entry and never takes another one.
With the wait assumed to end, the same call runs the cycle at once, the interval not
having elapsed. Neither way does the wait end when the interval has elapsed. -/
theorem loop_entered_early_never_returns (fuel intSize tExit : Nat) (radio : RadioResponse) :
    loop WaitBuild.spins fuel intSize 500 tExit radio initialState = none ∧
    usub 500 initialState.lastSentTime ≤ SEND_RATE ∧
    loop WaitBuild.assumedToEnd fuel intSize 500 tExit radio initialState =
      some ({ (receiveNodeData intSize radio { initialState with currentTime := 500 }).1 with
                lastSentTime := tExit },
            (receiveNodeData intSize radio { initialState with currentTime := 500 }).2) :=
  ⟨loop_spins fuel intSize 500 tExit radio initialState (by decide), by decide,
    loop_assumedToEnd fuel intSize 500 tExit radio initialState⟩

/-- C8: a call of `loop` that runs a cycle, in either build, leaves `lastSentTime` equal
to the reading of `millis()` taken after `receiveNodeData` returned; with any other driver
outcome the call runs a cycle too and leaves the same `lastSentTime`; and
`receiveNodeData` changes neither `lastSentTime` nor `currentTime`. -/
theorem loop_lastSentTime (build : WaitBuild) (fuel intSize tEntry tExit : Nat)
    (radio : RadioResponse) (s : State) (out : State × List Event)
    (hrun : loop build fuel intSize tEntry tExit radio s = some out) :
    out.1.lastSentTime = tExit ∧
    (∀ radio2 : RadioResponse, ∃ out2 : State × List Event,
      loop build fuel intSize tEntry tExit radio2 s = some out2 ∧
      out2.1.lastSentTime = out.1.lastSentTime) ∧
    (∀ s0 : State,
      (receiveNodeData intSize radio s0).1.lastSentTime = s0.lastSentTime ∧
      (receiveNodeData intSize radio s0).1.currentTime = s0.currentTime) := by
  obtain ⟨hb, hout⟩ := loop_eq_some build fuel intSize tEntry tExit radio s out hrun
  have hlast : out.1.lastSentTime = tExit := by rw [hout]
  refine ⟨hlast, fun radio2 => ⟨_, loop_of_busyWait build fuel intSize tEntry tExit radio2 s hb, ?_⟩,
    fun s0 => receiveNodeData_times intSize radio s0⟩
  rw [hlast]

/-- C8 from the initial state with `millis()` reading 1001 at entry and 1003 after the
cycle: the call, executed as written, runs a (failed) cycle and leaves
`lastSentTime = 1003`. -/
theorem loop_lastSentTime_witness :
    ∃ out : State × List Event,
      loop WaitBuild.spins 0 2 1001 1003 ⟨false, false, (0, 0)⟩ initialState = some out ∧
      out.1.lastSentTime = 1003 :=
  ⟨_, loop_runs WaitBuild.spins 0 2 1001 1003 ⟨false, false, (0, 0)⟩ initialState (by decide),
    (loop_lastSentTime WaitBuild.spins 0 2 1001 1003 ⟨false, false, (0, 0)⟩ initialState _
      (loop_runs WaitBuild.spins 0 2 1001 1003 ⟨false, false, (0, 0)⟩ initialState
        (by decide))).1⟩

end MasterNode
